import Mathlib

/-!
Shallow embedding of the chat-preference evaluation service
(src/app.py, src/models.py, src/database.py, src/config.py).

External collaborators are modelled as oracles:
the text-generation provider is a function parameter, the generated
uuid and the captured timestamps are string parameters, the in-memory
session dictionary is an association list with Python-dict semantics,
and the durable document store is a list to which inserts append.
-/

namespace ChatPref

/-- Binary vote, `Literal["up", "down"]` in models.py. -/
inductive Thumbs
  | up
  | down
deriving DecidableEq, Repr

/-- Request body of POST /api/v1/generate-responses (models.MultiResponseRequest).
`num_responses` is a Python int, hence an unrestricted integer. -/
structure MultiResponseRequest where
  user_prompt : String
  model_used : String
  num_responses : Int
deriving DecidableEq, Repr

/-- One entry of the in-memory `chat_sessions` dictionary (app.py lines 133-138). -/
structure SessionRecord where
  user_prompt : String
  responses : List String
  model_used : String
  created_at : String
deriving DecidableEq, Repr

/-- Request body of POST /api/v1/feedback (models.FeedbackRequest). -/
structure FeedbackRequest where
  chat_id : String
  selected_response_index : Int
  selected_response_text : String
  thumbs : Thumbs
  feedback_text : Option String
  user_id : String
  session_id : String
deriving DecidableEq, Repr

/-- The evaluation document assembled in submit_feedback (app.py lines 180-205). -/
structure EvaluationData where
  user_prompt : String
  all_responses : List String
  selected_response_index : Int
  selected_response_text : String
  thumbs : Thumbs
  feedback_text : Option String
  user_id : String
  session_id : String
  chat_id : String
  model_used : String
  prompt_created_at : String
  responses_created_at : String
  feedback_created_at : String
  server_received_at : String
  total_responses_shown : Nat
deriving DecidableEq, Repr

/-- Response model of generate-responses (models.MultiResponseResponse),
without the defaulted timestamp field. -/
structure MultiResponseResponse where
  success : Bool
  message : String
  user_prompt : String
  responses : List String
  chat_id : String
deriving DecidableEq, Repr

/-- Response model of feedback (models.EvaluationResponse),
without the defaulted timestamp field. -/
structure EvaluationResponse where
  success : Bool
  message : String
  evaluation_id : Option String
deriving DecidableEq, Repr

/-- Outcome of the feedback endpoint: HTTP 201 with a body, or the
HTTP 404 raised at app.py lines 174-177. -/
inductive FeedbackOutcome
  | created (resp : EvaluationResponse)
  | notFound (detail : String)
deriving DecidableEq, Repr

/-- The in-memory session store `chat_sessions`, a Python dict:
an association list in insertion order. -/
abbrev ChatSessions := List (String × SessionRecord)

/-- The durable store (Mongo collection): inserts append at the end. -/
abbrev MongoStore := List EvaluationData

/-- Python `dict.get`: value of the first (unique) binding of the key. -/
def dictGet (m : ChatSessions) (k : String) : Option SessionRecord :=
  match m with
  | [] => none
  | (k1, v1) :: rest => if k1 = k then some v1 else dictGet rest k

/-- Python `dict[k] = v`: overwrite in place if the key is present,
otherwise append the new binding. -/
def dictSet (m : ChatSessions) (k : String) (v : SessionRecord) : ChatSessions :=
  match m with
  | [] => [(k, v)]
  | (k1, v1) :: rest => if k1 = k then (k, v) :: rest else (k1, v1) :: dictSet rest k v

/-- One sampling configuration (app.py lines 106-110 hold only the temperature). -/
structure GenConfig where
  temperature : Rat
deriving DecidableEq, Repr

/-- The fixed ordered list of sampling configurations, app.py lines 106-110:
temperatures 0.3 (deterministic), 0.7 (balanced), 0.9 (creative). -/
def generation_configs : List GenConfig :=
  [⟨3 / 10⟩, ⟨7 / 10⟩, ⟨9 / 10⟩]

/-- Fixed maximum output length passed to every provider call (app.py line 118). -/
def max_output_tokens : Nat := 500

/-- Oracle for the external generative-text provider: slot index, prompt,
temperature, max output tokens; `none` models a raised exception. -/
abbrev Provider := Nat → String → Rat → Nat → Option String

/-- Python slice `xs[:n]` for an arbitrary integer bound `n`:
a nonnegative bound takes a prefix, a negative bound counts from the end. -/
def pySliceTo {α : Type} (xs : List α) (n : Int) : List α :=
  if 0 ≤ n then xs.take n.toNat else xs.take ((xs.length : Int) + n).toNat

/-- The deterministic fallback placeholder of app.py line 127, for 0-based
slot `i`: embeds the 1-based slot number and the original prompt. -/
def fallback_text (prompt : String) (i : Nat) : String :=
  "Response " ++ toString (i + 1) ++ ": This is a sample response for \x27"
    ++ prompt ++ "\x27"

/-- One iteration of the generation loop (app.py lines 112-127): call the
provider with the slot temperature; on failure substitute the fallback. -/
def generate_one (provider : Provider) (prompt : String) (i : Nat) (cfg : GenConfig) :
    String :=
  match provider i prompt cfg.temperature max_output_tokens with
  | some text => text
  | none => fallback_text prompt i

/-- The generate-responses endpoint (app.py lines 94-148). `freshId` is the
uuid4 oracle, `now` the captured creation timestamp. Returns the HTTP body
and the updated session store. -/
def generate_responses (provider : Provider) (freshId : String) (now : String)
    (req : MultiResponseRequest) (store : ChatSessions) :
    MultiResponseResponse × ChatSessions :=
  let selected := pySliceTo generation_configs req.num_responses
  let responses := selected.enum.map (fun p => generate_one provider req.user_prompt p.1 p.2)
  let record : SessionRecord := ⟨req.user_prompt, responses, req.model_used, now⟩
  (⟨true,
    "Successfully generated " ++ toString responses.length ++ " responses using Gemini",
    req.user_prompt, responses, freshId⟩,
   dictSet store freshId record)

/-- MongoDB.insert_evaluation (database.py lines 43-51): append the document,
return its storage-assigned identifier (modelled as the index it lands at). -/
def insert_evaluation (db : MongoStore) (e : EvaluationData) : String × MongoStore :=
  (toString db.length, db ++ [e])

/-- The evaluation_data dictionary of app.py lines 180-205, merging the
stored session with the submitted feedback; `nowFeedback` and `nowServer`
are the two independently captured timestamps of lines 200-201. -/
def mkEvaluationData (chat_data : SessionRecord) (fb : FeedbackRequest)
    (nowFeedback nowServer : String) : EvaluationData :=
  ⟨chat_data.user_prompt, chat_data.responses,
   fb.selected_response_index, fb.selected_response_text,
   fb.thumbs, fb.feedback_text,
   fb.user_id, fb.session_id, fb.chat_id,
   chat_data.model_used,
   chat_data.created_at, chat_data.created_at,
   nowFeedback, nowServer,
   chat_data.responses.length⟩

/-- The feedback endpoint (app.py lines 164-219). Returns the outcome plus
the (unchanged) session store and the updated durable store. -/
def submit_feedback (nowFeedback nowServer : String) (fb : FeedbackRequest)
    (store : ChatSessions) (db : MongoStore) :
    FeedbackOutcome × ChatSessions × MongoStore :=
  match dictGet store fb.chat_id with
  | none => (FeedbackOutcome.notFound "Chat session not found or expired", store, db)
  | some chat_data =>
      let e := mkEvaluationData chat_data fb nowFeedback nowServer
      let inserted := insert_evaluation db e
      (FeedbackOutcome.created ⟨true, "Feedback submitted successfully", some inserted.1⟩,
       store, inserted.2)

/-- Round half to even on an exact rational, the behaviour of Python round
on an exactly representable tie. -/
def roundHalfEven (q : Rat) : Int :=
  if Int.fract q = 1 / 2 then 2 * round (q / 2) else round q

/-- Python `round(x, 2)` idealised over exact rationals. -/
def pyRound2 (q : Rat) : Rat := (roundHalfEven (q * 100) : Rat) / 100

/-- Body of GET /api/v1/stats (app.py lines 245-252). -/
structure StatsResult where
  total_evaluations : Nat
  thumbs_up : Nat
  thumbs_down : Nat
  positive_rate : Rat
  unique_users : Nat
  unique_sessions : Nat
deriving DecidableEq, Repr

/-- The stats endpoint (app.py lines 232-252): counts over the durable
store, and the positive rate guarded against division by zero. -/
def get_stats (db : MongoStore) : StatsResult :=
  let total := db.length
  let up := (db.filter (fun e => e.thumbs = Thumbs.up)).length
  let down := (db.filter (fun e => e.thumbs = Thumbs.down)).length
  ⟨total, up, down,
   if total > 0 then pyRound2 ((up : Rat) / (total : Rat) * 100) else 0,
   ((db.map (fun e => e.user_id)).dedup).length,
   ((db.map (fun e => e.session_id)).dedup).length⟩

/-- A provider oracle that always succeeds, for concrete evaluations. -/
def okProvider : Provider := fun _ _ _ _ => some "ok"

/-- A provider oracle that always fails, for concrete evaluations. -/
def failProvider : Provider := fun _ _ _ _ => none

/-- A concrete feedback request, for concrete evaluations. -/
def sampleFeedback : FeedbackRequest :=
  ⟨"id0", 0, "ok", Thumbs.up, none, "user1", "sess1"⟩

/-- A concrete evaluation document, for concrete evaluations. -/
def sampleEval : EvaluationData :=
  ⟨"p", ["ok"], 0, "ok", Thumbs.up, none, "user1", "sess1", "id0", "m",
   "t0", "t0", "t1", "t2", 1⟩

/-- A concrete session record, for concrete evaluations. -/
def sampleSession : SessionRecord := ⟨"p", ["ok"], "m", "t0"⟩

/-- A one-session store, for concrete evaluations. -/
def sampleStore : ChatSessions := [("id0", sampleSession)]

/-- A feedback request with an out-of-range index and a mismatched text,
for concrete evaluations. -/
def oorFeedback : FeedbackRequest :=
  ⟨"id0", 99, "zz", Thumbs.up, none, "user1", "sess1"⟩

/-- A feedback request against the fresh id used in concrete evaluations
of the zero-response scenario. -/
def freshFeedback : FeedbackRequest :=
  ⟨"idF", 0, "", Thumbs.down, none, "user2", "sess2"⟩

/-- Looking up the key just written always finds the written record. -/
theorem dictGet_dictSet_self (m : ChatSessions) (k : String) (v : SessionRecord) :
    dictGet (dictSet m k v) k = some v := by
  induction m with
  | nil => simp [dictSet, dictGet]
  | cons hd tl ih =>
      obtain ⟨k1, v1⟩ := hd
      by_cases hk : k1 = k
      · simp [dictSet, dictGet, hk]
      · simp [dictSet, dictGet, hk, ih]

/-- Indexing into an enumerate-then-map list: the element at `i` is the
function applied to the index and the underlying element. -/
theorem enum_map_getElem? {α β : Type} (f : Nat × α → β) (l : List α) (i : Nat) :
    (l.enum.map f)[i]? = (l[i]?).map (fun a => f (i, a)) := by
  rw [List.getElem?_map f l.enum i, List.getElem?_enum l i, Option.map_map]
  rfl

/-- With a nonnegative bound, the Python slice is an ordinary take. -/
theorem pySliceTo_of_nonneg {α : Type} (xs : List α) (n : Int) (hn : 0 ≤ n) :
    pySliceTo xs n = xs.take n.toNat := by
  unfold pySliceTo
  rw [if_pos hn]

/-- Claim C3: feedback against an unknown session id yields the not-found
outcome with the source detail message and leaves both the session store
and the durable store unchanged. -/
theorem claim3 (nowF nowS : String) (fb : FeedbackRequest) (store : ChatSessions)
    (db : MongoStore) (h : dictGet store fb.chat_id = none) :
    submit_feedback nowF nowS fb store db =
      (FeedbackOutcome.notFound "Chat session not found or expired", store, db) := by
  simp [submit_feedback, h]

/-- Witness for C3 at a concrete unknown session id. -/
theorem claim3_witness :
    submit_feedback "t1" "t2" oorFeedback [] [] =
      (FeedbackOutcome.notFound "Chat session not found or expired", [], []) :=
  claim3 "t1" "t2" oorFeedback [] [] (by decide)

/-- Claim C5: when the fresh uuid is absent from the store (the uuid oracle
assumption), a successful generation call leaves it absent no longer: the
store afterwards maps it to the session record holding the submitted prompt,
the generated texts in call order and the submitted model name, and that
same id is returned as the chat id of a successful response. -/
theorem claim5 (provider : Provider) (freshId now : String) (req : MultiResponseRequest)
    (store : ChatSessions) (h : dictGet store freshId = none) :
    dictGet store freshId = none ∧
    dictGet (generate_responses provider freshId now req store).2 freshId =
      some ⟨req.user_prompt, (generate_responses provider freshId now req store).1.responses,
        req.model_used, now⟩ ∧
    (generate_responses provider freshId now req store).1.chat_id = freshId ∧
    (generate_responses provider freshId now req store).1.success = true :=
  ⟨h, dictGet_dictSet_self store freshId _, rfl, rfl⟩

/-- Witness for C5 on the empty store. -/
theorem claim5_witness :
    dictGet (generate_responses okProvider "idF" "t0" ⟨"p", "m", 1⟩ []).2 "idF" =
      some ⟨"p", (generate_responses okProvider "idF" "t0" ⟨"p", "m", 1⟩ []).1.responses,
        "m", "t0"⟩ :=
  (claim5 okProvider "idF" "t0" ⟨"p", "m", 1⟩ [] (by decide)).2.1

/-- Claim C4: feedback against a known session id appends exactly one
record to the durable store; its prompt, texts and model equal the stored
session fields, its vote fields equal the submitted feedback, its
total_responses_shown is the length of the session texts, and the outcome
is success carrying the storage-assigned identifier of that very record. -/
theorem claim4 (nowF nowS : String) (fb : FeedbackRequest) (store : ChatSessions)
    (db : MongoStore) (cd : SessionRecord)
    (h : dictGet store fb.chat_id = some cd) :
    (submit_feedback nowF nowS fb store db).2.2 = db ++ [mkEvaluationData cd fb nowF nowS] ∧
    (mkEvaluationData cd fb nowF nowS).user_prompt = cd.user_prompt ∧
    (mkEvaluationData cd fb nowF nowS).all_responses = cd.responses ∧
    (mkEvaluationData cd fb nowF nowS).model_used = cd.model_used ∧
    (mkEvaluationData cd fb nowF nowS).selected_response_index = fb.selected_response_index ∧
    (mkEvaluationData cd fb nowF nowS).selected_response_text = fb.selected_response_text ∧
    (mkEvaluationData cd fb nowF nowS).thumbs = fb.thumbs ∧
    (mkEvaluationData cd fb nowF nowS).feedback_text = fb.feedback_text ∧
    (mkEvaluationData cd fb nowF nowS).user_id = fb.user_id ∧
    (mkEvaluationData cd fb nowF nowS).total_responses_shown = cd.responses.length ∧
    (submit_feedback nowF nowS fb store db).1 =
      FeedbackOutcome.created ⟨true, "Feedback submitted successfully",
        some (toString db.length)⟩ ∧
    ((submit_feedback nowF nowS fb store db).2.2)[db.length]? =
      some (mkEvaluationData cd fb nowF nowS) := by
  refine ⟨?_, rfl, rfl, rfl, rfl, rfl, rfl, rfl, rfl, rfl, ?_, ?_⟩
  · simp [submit_feedback, h, insert_evaluation]
  · simp [submit_feedback, h, insert_evaluation]
  · have hdb : (submit_feedback nowF nowS fb store db).2.2 =
        db ++ [mkEvaluationData cd fb nowF nowS] := by
      simp [submit_feedback, h, insert_evaluation]
    rw [hdb]
    exact List.getElem?_concat_length db (mkEvaluationData cd fb nowF nowS)

/-- Witness for C4 at a concrete known session. -/
theorem claim4_witness :
    (submit_feedback "t1" "t2" oorFeedback sampleStore []).2.2 =
      [] ++ [mkEvaluationData sampleSession oorFeedback "t1" "t2"] :=
  (claim4 "t1" "t2" oorFeedback sampleStore [] sampleSession (by decide)).1

/-- Claim C7: feedback never mutates the session store (in either outcome),
so after a first successful submission the same session id still resolves to
the same record and a second submission also succeeds, appending a second,
independent durable record with the next storage-assigned identifier. -/
theorem claim7 (nowF1 nowS1 nowF2 nowS2 : String) (fb1 fb2 : FeedbackRequest)
    (store : ChatSessions) (db : MongoStore) (cd : SessionRecord)
    (h : dictGet store fb1.chat_id = some cd) (h2 : fb2.chat_id = fb1.chat_id) :
    (∀ (fb : FeedbackRequest) (nF nS : String) (db0 : MongoStore),
      (submit_feedback nF nS fb store db0).2.1 = store) ∧
    dictGet (submit_feedback nowF1 nowS1 fb1 store db).2.1 fb1.chat_id = some cd ∧
    (submit_feedback nowF2 nowS2 fb2
        (submit_feedback nowF1 nowS1 fb1 store db).2.1
        (submit_feedback nowF1 nowS1 fb1 store db).2.2).1 =
      FeedbackOutcome.created ⟨true, "Feedback submitted successfully",
        some (toString (db.length + 1))⟩ ∧
    (submit_feedback nowF2 nowS2 fb2
        (submit_feedback nowF1 nowS1 fb1 store db).2.1
        (submit_feedback nowF1 nowS1 fb1 store db).2.2).2.2 =
      db ++ [mkEvaluationData cd fb1 nowF1 nowS1] ++ [mkEvaluationData cd fb2 nowF2 nowS2] := by
  have hframe : ∀ (fb : FeedbackRequest) (nF nS : String) (db0 : MongoStore),
      (submit_feedback nF nS fb store db0).2.1 = store := by
    intro fb nF nS db0
    cases hd : dictGet store fb.chat_id <;> simp [submit_feedback, hd]
  have hstore1 : (submit_feedback nowF1 nowS1 fb1 store db).2.1 = store :=
    hframe fb1 nowF1 nowS1 db
  have hdb1 : (submit_feedback nowF1 nowS1 fb1 store db).2.2 =
      db ++ [mkEvaluationData cd fb1 nowF1 nowS1] := by
    simp [submit_feedback, h, insert_evaluation]
  have hlook2 : dictGet store fb2.chat_id = some cd := by rw [h2]; exact h
  refine ⟨hframe, ?_, ?_, ?_⟩
  · rw [hstore1]; exact h
  · rw [hstore1, hdb1]
    simp [submit_feedback, hlook2, insert_evaluation]
  · rw [hstore1, hdb1]
    simp [submit_feedback, hlook2, insert_evaluation]

/-- Witness for C7: two submissions against the same concrete session. -/
theorem claim7_witness :
    (submit_feedback "t3" "t4" oorFeedback
        (submit_feedback "t1" "t2" oorFeedback sampleStore []).2.1
        (submit_feedback "t1" "t2" oorFeedback sampleStore []).2.2).2.2 =
      [] ++ [mkEvaluationData sampleSession oorFeedback "t1" "t2"]
         ++ [mkEvaluationData sampleSession oorFeedback "t3" "t4"] :=
  (claim7 "t1" "t2" "t3" "t4" oorFeedback oorFeedback sampleStore [] sampleSession
    (by decide) rfl).2.2.2

/-- Claim C8: against a known session, an out-of-range selected index and a
selected text matching no element at that index are accepted (the outcome is
still success) and stored verbatim in the appended durable record. -/
theorem claim8 (nowF nowS : String) (fb : FeedbackRequest) (store : ChatSessions)
    (db : MongoStore) (cd : SessionRecord)
    (h : dictGet store fb.chat_id = some cd)
    (_hrange : fb.selected_response_index < 0 ∨
      (cd.responses.length : Int) ≤ fb.selected_response_index)
    (_htext : ∀ (j : Nat), (j : Int) = fb.selected_response_index →
      cd.responses[j]? ≠ some fb.selected_response_text) :
    (submit_feedback nowF nowS fb store db).1 =
      FeedbackOutcome.created ⟨true, "Feedback submitted successfully",
        some (toString db.length)⟩ ∧
    (submit_feedback nowF nowS fb store db).2.2 = db ++ [mkEvaluationData cd fb nowF nowS] ∧
    (mkEvaluationData cd fb nowF nowS).selected_response_index = fb.selected_response_index ∧
    (mkEvaluationData cd fb nowF nowS).selected_response_text = fb.selected_response_text := by
  refine ⟨?_, ?_, rfl, rfl⟩
  · simp [submit_feedback, h, insert_evaluation]
  · simp [submit_feedback, h, insert_evaluation]

/-- Witness for C8: index 99 against a one-text session is accepted. -/
theorem claim8_witness :
    (submit_feedback "t1" "t2" oorFeedback sampleStore []).1 =
      FeedbackOutcome.created ⟨true, "Feedback submitted successfully",
        some (toString (0 : Nat))⟩ :=
  (claim8 "t1" "t2" oorFeedback sampleStore [] sampleSession (by decide)
    (by decide)
    (by
      intro j hj
      rw [show oorFeedback.selected_response_index = 99 from rfl] at hj
      have hj99 : j = 99 := by omega
      subst hj99
      decide)).1

/-- Claim C1: for num_responses in {1,2,3} generation returns exactly that
many texts, computed from the fixed ordered configuration list taken as an
initial segment (temperatures 0.3, 0.7, 0.9 in that order); for
num_responses above 3 at most three texts are returned and the call still
succeeds. -/
theorem claim1 (provider : Provider) (freshId now prompt model : String)
    (n : Int) (store : ChatSessions) :
    (1 ≤ n → n ≤ 3 →
      ((generate_responses provider freshId now ⟨prompt, model, n⟩ store).1.responses.length
          : Int) = n ∧
      (generate_responses provider freshId now ⟨prompt, model, n⟩ store).1.responses =
        (generation_configs.take n.toNat).enum.map
          (fun p => generate_one provider prompt p.1 p.2) ∧
      (generate_responses provider freshId now ⟨prompt, model, n⟩ store).1.success = true) ∧
    (3 < n →
      (generate_responses provider freshId now ⟨prompt, model, n⟩ store).1.responses.length
          ≤ 3 ∧
      (generate_responses provider freshId now ⟨prompt, model, n⟩ store).1.success = true) := by
  have hresp : (generate_responses provider freshId now ⟨prompt, model, n⟩ store).1.responses =
      (pySliceTo generation_configs n).enum.map
        (fun p => generate_one provider prompt p.1 p.2) := rfl
  constructor
  · intro h1 h3
    have hn : 0 ≤ n := by omega
    have hsel := pySliceTo_of_nonneg generation_configs n hn
    refine ⟨?_, ?_, rfl⟩
    · rw [hresp, hsel]
      simp only [List.length_map, List.enum_length, List.length_take, generation_configs,
        List.length_cons, List.length_nil]
      omega
    · rw [hresp, hsel]
  · intro h3
    have hn : 0 ≤ n := by omega
    have hsel := pySliceTo_of_nonneg generation_configs n hn
    refine ⟨?_, rfl⟩
    rw [hresp, hsel]
    simp only [List.length_map, List.enum_length, List.length_take, generation_configs,
      List.length_cons, List.length_nil]
    omega

/-- Witness for C1 at num_responses 2 and 7. -/
theorem claim1_witness :
    ((generate_responses okProvider "w1" "t" ⟨"p", "m", 2⟩ []).1.responses.length : Int) = 2 ∧
    (generate_responses okProvider "w1" "t" ⟨"p", "m", 7⟩ []).1.responses.length ≤ 3 :=
  ⟨((claim1 okProvider "w1" "t" "p" "m" 2 []).1 (by decide) (by decide)).1,
   ((claim1 okProvider "w1" "t" "p" "m" 7 []).2 (by decide)).1⟩

/-- Claim C2: if the provider call for slot i (with that slot's
configuration) fails, the text returned for slot i is exactly the
deterministic fallback embedding the prompt and the 1-based slot number,
the call still reports success, the stored session carries the same texts,
and any slot other than i is unaffected: its text agrees with the run under
any provider that behaves the same on that slot. -/
theorem claim2 (provider : Provider) (freshId now prompt model : String)
    (n : Int) (store : ChatSessions) (i : Nat) (cfg : GenConfig)
    (hcfg : (pySliceTo generation_configs n)[i]? = some cfg)
    (hfail : provider i prompt cfg.temperature max_output_tokens = none) :
    (generate_responses provider freshId now ⟨prompt, model, n⟩ store).1.responses[i]? =
      some ("Response " ++ toString (i + 1) ++ ": This is a sample response for \x27"
        ++ prompt ++ "\x27") ∧
    (generate_responses provider freshId now ⟨prompt, model, n⟩ store).1.success = true ∧
    dictGet (generate_responses provider freshId now ⟨prompt, model, n⟩ store).2 freshId =
      some ⟨prompt,
        (generate_responses provider freshId now ⟨prompt, model, n⟩ store).1.responses,
        model, now⟩ ∧
    (∀ (altP : Provider) (j : Nat), j ≠ i → altP j = provider j →
      (generate_responses altP freshId now ⟨prompt, model, n⟩ store).1.responses[j]? =
      (generate_responses provider freshId now ⟨prompt, model, n⟩ store).1.responses[j]?) := by
  have hresp : ∀ (P : Provider),
      (generate_responses P freshId now ⟨prompt, model, n⟩ store).1.responses =
        (pySliceTo generation_configs n).enum.map
          (fun p => generate_one P prompt p.1 p.2) := fun _ => rfl
  refine ⟨?_, rfl, dictGet_dictSet_self store freshId _, ?_⟩
  · rw [hresp provider, enum_map_getElem?, hcfg]
    simp [generate_one, hfail, fallback_text]
  · intro altP j _hj hagree
    rw [hresp altP, hresp provider, enum_map_getElem?, enum_map_getElem?]
    cases hx : (pySliceTo generation_configs n)[j]? with
    | none => simp
    | some c => simp [generate_one, hagree]

/-- Witness for C2: with a provider that always fails, slot 1 of a
three-response request is the fallback text naming slot 2. -/
theorem claim2_witness :
    (generate_responses failProvider "w2" "t" ⟨"p", "m", 3⟩ []).1.responses[1]? =
      some ("Response " ++ toString (1 + 1) ++ ": This is a sample response for \x27"
        ++ "p" ++ "\x27") :=
  (claim2 failProvider "w2" "t" "p" "m" 3 [] 1 ⟨7 / 10⟩ rfl rfl).1

/-- Claim C6 as stated fails on the code: at num_responses = -1 the Python
slice keeps the first two configurations, so two texts are generated and
stored, and 2 is not at most -1. -/
theorem claim6_counterexample :
    (generate_responses okProvider "id0" "t0" ⟨"p", "m", -1⟩ []).1.responses.length = 2 ∧
    dictGet (generate_responses okProvider "id0" "t0" ⟨"p", "m", -1⟩ []).2 "id0" =
      some ⟨"p", ["ok", "ok"], "m", "t0"⟩ ∧
    ¬(((generate_responses okProvider "id0" "t0" ⟨"p", "m", -1⟩ []).1.responses.length
        : Int) ≤ -1) := by
  refine ⟨?_, ?_, ?_⟩ <;> decide

/-- Claim C6 amended: for every integer num_responses the stored texts have
one element per attempted configuration in generation order, and the bound
length at most num_responses holds for every nonnegative num_responses
(a negative num_responses is a Python slice from the end of the
configuration list, where the bound fails). -/
theorem claim6 (provider : Provider) (freshId now prompt model : String)
    (n : Int) (store : ChatSessions) :
    (generate_responses provider freshId now ⟨prompt, model, n⟩ store).1.responses =
      (pySliceTo generation_configs n).enum.map
        (fun p => generate_one provider prompt p.1 p.2) ∧
    (generate_responses provider freshId now ⟨prompt, model, n⟩ store).1.responses.length =
      (pySliceTo generation_configs n).length ∧
    dictGet (generate_responses provider freshId now ⟨prompt, model, n⟩ store).2 freshId =
      some ⟨prompt,
        (generate_responses provider freshId now ⟨prompt, model, n⟩ store).1.responses,
        model, now⟩ ∧
    (0 ≤ n →
      ((generate_responses provider freshId now ⟨prompt, model, n⟩ store).1.responses.length
          : Int) ≤ n) := by
  refine ⟨rfl, by simp [generate_responses], dictGet_dictSet_self store freshId _, ?_⟩
  intro hn
  have hsel := pySliceTo_of_nonneg generation_configs n hn
  have hresp : (generate_responses provider freshId now ⟨prompt, model, n⟩ store).1.responses =
      (pySliceTo generation_configs n).enum.map
        (fun p => generate_one provider prompt p.1 p.2) := rfl
  rw [hresp, hsel]
  simp only [List.length_map, List.enum_length, List.length_take, generation_configs,
    List.length_cons, List.length_nil]
  omega

/-- Witness for C6 at num_responses 5. -/
theorem claim6_witness :
    (0 : Int) ≤ 5 ∧
    ((generate_responses okProvider "w6" "t" ⟨"p", "m", 5⟩ []).1.responses.length : Int) ≤ 5 :=
  ⟨by decide, (claim6 okProvider "w6" "t" "p" "m" 5 []).2.2.2 (by decide)⟩

/-- Claim C9: with an empty durable store the positive rate is 0 (the
division is guarded), and with N positive records of which k carry an up
vote the rate is round(100 k / N, 2). -/
theorem claim9 (db : MongoStore) :
    (db.length = 0 → (get_stats db).positive_rate = 0) ∧
    (0 < db.length →
      (get_stats db).positive_rate =
        pyRound2 (100 * ((db.filter (fun e => e.thumbs = Thumbs.up)).length : Rat)
          / (db.length : Rat))) := by
  constructor
  · intro h0
    simp [get_stats, h0]
  · intro hpos
    have hrate : (get_stats db).positive_rate =
        pyRound2 (((db.filter (fun e => e.thumbs = Thumbs.up)).length : Rat)
          / (db.length : Rat) * 100) := by
      simp [get_stats, hpos]
    rw [hrate]
    congr 1
    ring

/-- Witness for C9 on the empty store and on a one-record store. -/
theorem claim9_witness :
    (get_stats []).positive_rate = 0 ∧
    (get_stats [sampleEval]).positive_rate =
      pyRound2 (100 * ((([sampleEval] : MongoStore).filter
        (fun e => e.thumbs = Thumbs.up)).length : Rat) / (([sampleEval] : MongoStore).length : Rat)) :=
  ⟨(claim9 []).1 rfl, (claim9 [sampleEval]).2 (by decide)⟩

/-- Claim C10: a request for zero responses succeeds with an empty text
list and a fresh chat id, stores a session with no texts, never consults
the provider (any two providers give identical results), and a later
feedback submission against that chat id succeeds, appending a durable
record with total_responses_shown equal to 0. -/
theorem claim10 (provider altProvider : Provider)
    (freshId now nowF nowS prompt model : String)
    (store : ChatSessions) (db : MongoStore) (fb : FeedbackRequest)
    (hfresh : dictGet store freshId = none) (hchat : fb.chat_id = freshId) :
    dictGet store freshId = none ∧
    (generate_responses provider freshId now ⟨prompt, model, 0⟩ store).1.responses = [] ∧
    (generate_responses provider freshId now ⟨prompt, model, 0⟩ store).1.success = true ∧
    (generate_responses provider freshId now ⟨prompt, model, 0⟩ store).1.chat_id = freshId ∧
    generate_responses provider freshId now ⟨prompt, model, 0⟩ store =
      generate_responses altProvider freshId now ⟨prompt, model, 0⟩ store ∧
    dictGet (generate_responses provider freshId now ⟨prompt, model, 0⟩ store).2 freshId =
      some ⟨prompt, [], model, now⟩ ∧
    (submit_feedback nowF nowS fb
        (generate_responses provider freshId now ⟨prompt, model, 0⟩ store).2 db).1 =
      FeedbackOutcome.created ⟨true, "Feedback submitted successfully",
        some (toString db.length)⟩ ∧
    (submit_feedback nowF nowS fb
        (generate_responses provider freshId now ⟨prompt, model, 0⟩ store).2 db).2.2 =
      db ++ [mkEvaluationData ⟨prompt, [], model, now⟩ fb nowF nowS] ∧
    (mkEvaluationData ⟨prompt, [], model, now⟩ fb nowF nowS).total_responses_shown = 0 := by
  have hlook : dictGet (generate_responses provider freshId now ⟨prompt, model, 0⟩ store).2
      fb.chat_id = some ⟨prompt, [], model, now⟩ := by
    rw [hchat]
    exact dictGet_dictSet_self store freshId _
  refine ⟨hfresh, rfl, rfl, rfl, rfl, dictGet_dictSet_self store freshId _, ?_, ?_, rfl⟩
  · simp [submit_feedback, hlook, insert_evaluation]
  · simp [submit_feedback, hlook, insert_evaluation]

/-- Witness for C10 on the empty store and empty durable store. -/
theorem claim10_witness :
    (generate_responses okProvider "idF" "t" ⟨"p", "m", 0⟩ []).1.responses = [] ∧
    (submit_feedback "t1" "t2" freshFeedback
        (generate_responses okProvider "idF" "t" ⟨"p", "m", 0⟩ []).2 []).2.2 =
      [] ++ [mkEvaluationData ⟨"p", [], "m", "t"⟩ freshFeedback "t1" "t2"] ∧
    (mkEvaluationData ⟨"p", [], "m", "t"⟩ freshFeedback "t1" "t2").total_responses_shown = 0 := by
  have h := claim10 okProvider failProvider "idF" "t" "t1" "t2" "p" "m" [] [] freshFeedback
    (by decide) rfl
  exact ⟨h.2.1, h.2.2.2.2.2.2.2.1, h.2.2.2.2.2.2.2.2⟩

end ChatPref
